import Mathlib

set_option linter.all false

/-!
Shallow embedding of the consultation workflow of the
EMERGENCY_CONSULTATION repository.

The durable state lives in a Postgres-backed store (Supabase).  The
store-side contract is the schema and the row-level-security (RLS)
policies in `src/unnamed/part_000`; the client operations are the
handlers in `src/app/(tabs)/consultations.tsx` (accept / start /
complete, and the consultation list query) and
`src/app/(tabs)/index.tsx` (request consultation).

Modelling conventions:
* uuids and timestamps are `Nat`; `gen_random_uuid()` is modelled as a
  fresh counter (`DB.nextId`).
* a PostgREST `update(payload).eq('id', cid)` issued through the
  supabase client updates every row that matches the filter AND the
  disjunction of the applicable UPDATE policies' USING clauses
  (permissive policies are OR-ed); every updated row must satisfy the
  disjunction of the WITH CHECK clauses, otherwise the whole statement
  errors and nothing is written.  The `update_updated_at_column`
  trigger sets `updated_at` on every updated row.
* the client issues these updates with `Prefer: return=minimal` (no
  `.select()` is chained), so no SELECT policy is involved in writes.
* foreign-key constraints (`doctor_id REFERENCES doctors`,
  `patient_id REFERENCES profiles`) are not modelled as checks; the
  concrete states used below are chosen to satisfy them.
* ordering of query results (`order('created_at', ...)`) is not
  modelled; only membership of rows in a result set is used.
-/

/-- `status` column of `consultations`
(`CHECK (status IN ('pending','assigned','in_progress','completed','cancelled'))`). -/
inductive Status where
  | pending
  | assigned
  | in_progress
  | completed
  | cancelled
deriving DecidableEq, Repr

/-- `urgency_level` column of `consultations`. -/
inductive Urgency where
  | low
  | medium
  | high
  | critical
deriving DecidableEq, Repr

/-- `user_type` column of `profiles` (`CHECK (user_type IN ('patient','doctor'))`). -/
inductive UserType where
  | patient
  | doctor
deriving DecidableEq, Repr

/-- A row of the `profiles` table (src/unnamed/part_000, lines 178-185). -/
structure Profile where
  id : Nat
  user_type : UserType
  full_name : String
  phone : Option String
  created_at : Nat
  updated_at : Nat
deriving DecidableEq, Repr

/-- A row of the `doctors` table (src/unnamed/part_000, lines 190-199). -/
structure Doctor where
  id : Nat
  specialization : String
  license_number : String
  is_available : Bool
  years_of_experience : Nat
  bio : Option String
  created_at : Nat
  updated_at : Nat
deriving DecidableEq, Repr

/-- A row of the `consultations` table (src/unnamed/part_000, lines 204-217). -/
structure Consultation where
  id : Nat
  patient_id : Nat
  doctor_id : Option Nat
  status : Status
  urgency_level : Urgency
  symptoms : String
  notes : Option String
  scheduled_at : Option Nat
  started_at : Option Nat
  completed_at : Option Nat
  created_at : Nat
  updated_at : Nat
deriving DecidableEq, Repr

/-- The visible database state: the three tables plus the id generator. -/
structure DB where
  profiles : List Profile
  doctors : List Doctor
  consultations : List Consultation
  nextId : Nat
deriving DecidableEq, Repr

/-- `EXISTS (SELECT 1 FROM doctors WHERE id = auth.uid())`: the caller has a
row in `doctors`. -/
def isDoctorRow (db : DB) (uid : Nat) : Bool :=
  db.doctors.any (fun d => d.id == uid)

/-- `EXISTS (SELECT 1 FROM profiles WHERE id = auth.uid() AND user_type = 'patient')`. -/
def hasPatientProfile (db : DB) (uid : Nat) : Bool :=
  db.profiles.any (fun p => p.id == uid && decide (p.user_type = UserType.patient))

/-- The role recorded in the caller's profile, if any. -/
def profileRole (db : DB) (uid : Nat) : Option UserType :=
  (db.profiles.find? (fun p => p.id == uid)).map (fun p => p.user_type)

/-- USING clause of the SELECT policy "Patients can view own consultations"
(src/unnamed/part_000, lines 262-268):
`patient_id = auth.uid() OR doctor_id IN (SELECT id FROM doctors WHERE id = auth.uid())`.
A NULL `doctor_id` makes the IN test non-true. -/
def consultationsSelectUsing (db : DB) (uid : Nat) (row : Consultation) : Bool :=
  row.patient_id == uid ||
    (match row.doctor_id with
     | some d => d == uid && isDoctorRow db uid
     | none => false)

/-- WITH CHECK clause of the INSERT policy "Patients can create consultations"
(src/unnamed/part_000, lines 270-276). -/
def consultationsInsertCheck (db : DB) (uid : Nat) (row : Consultation) : Bool :=
  row.patient_id == uid && hasPatientProfile db uid

/-- USING clause of the UPDATE policy "Patients can update own consultations"
(src/unnamed/part_000, lines 278-282). -/
def patientsUpdateUsing (uid : Nat) (row : Consultation) : Bool :=
  row.patient_id == uid

/-- WITH CHECK clause of the UPDATE policy "Patients can update own consultations". -/
def patientsUpdateCheck (uid : Nat) (row : Consultation) : Bool :=
  row.patient_id == uid

/-- USING clause of the UPDATE policy "Doctors can update assigned consultations"
(src/unnamed/part_000, lines 284-293):
`doctor_id IN (SELECT id FROM doctors WHERE id = auth.uid()) OR
 (doctor_id IS NULL AND EXISTS (SELECT 1 FROM doctors WHERE id = auth.uid()))`. -/
def doctorsUpdateUsing (db : DB) (uid : Nat) (row : Consultation) : Bool :=
  match row.doctor_id with
  | some d => d == uid && isDoctorRow db uid
  | none => isDoctorRow db uid

/-- WITH CHECK clause of the UPDATE policy "Doctors can update assigned consultations":
`doctor_id IN (SELECT id FROM doctors WHERE id = auth.uid())`, evaluated on the
row as it would be after the update. -/
def doctorsUpdateCheck (db : DB) (uid : Nat) (row : Consultation) : Bool :=
  match row.doctor_id with
  | some d => d == uid && isDoctorRow db uid
  | none => false

/-- Permissive UPDATE policies on the same table are OR-ed by Postgres:
a row is updatable when either USING clause holds. -/
def consultationsUpdateUsing (db : DB) (uid : Nat) (row : Consultation) : Bool :=
  patientsUpdateUsing uid row || doctorsUpdateUsing db uid row

/-- OR of the UPDATE policies' WITH CHECK clauses, evaluated on the updated row. -/
def consultationsUpdateCheck (db : DB) (uid : Nat) (row : Consultation) : Bool :=
  patientsUpdateCheck uid row || doctorsUpdateCheck db uid row

/-- A PostgREST update payload for `consultations`: each field is either absent
(`none`) or supplies the new column value.  Mirrors the `Update` row type in
src/unnamed/part_000, lines 105-118. -/
structure ConsultationUpdate where
  patient_id : Option Nat := none
  doctor_id : Option (Option Nat) := none
  status : Option Status := none
  urgency_level : Option Urgency := none
  symptoms : Option String := none
  notes : Option (Option String) := none
  scheduled_at : Option (Option Nat) := none
  started_at : Option (Option Nat) := none
  completed_at : Option (Option Nat) := none
deriving DecidableEq, Repr

/-- Apply an update payload to a row.  The `update_updated_at_column` trigger
(src/unnamed/part_000, lines 303-335) sets `updated_at = now()` on every
updated row; `id` and `created_at` are never supplied by the client handlers. -/
def applyUpdate (u : ConsultationUpdate) (now : Nat) (row : Consultation) : Consultation :=
  { row with
    patient_id := u.patient_id.getD row.patient_id
    doctor_id := u.doctor_id.getD row.doctor_id
    status := u.status.getD row.status
    urgency_level := u.urgency_level.getD row.urgency_level
    symptoms := u.symptoms.getD row.symptoms
    notes := u.notes.getD row.notes
    scheduled_at := u.scheduled_at.getD row.scheduled_at
    started_at := u.started_at.getD row.started_at
    completed_at := u.completed_at.getD row.completed_at
    updated_at := now }

/-- A row is written by `update(payload).eq('id', cid)` when it matches the
client filter and some UPDATE policy's USING clause. -/
def updateTargets (db : DB) (uid cid : Nat) (row : Consultation) : Bool :=
  row.id == cid && consultationsUpdateUsing db uid row

/-- Error surfaced by the store for a rejected write; the client handlers
only test whether `error` is present.  Either the RLS WITH CHECK violation
(Postgres error 42501) or a foreign-key violation (Postgres error 23503). -/
inductive StoreError where
  | rowSecurityViolation
  | foreignKeyViolation
deriving DecidableEq, Repr

/-- `EXISTS (SELECT 1 FROM profiles WHERE id = x)`: referenced profile row. -/
def profileExists (db : DB) (pid : Nat) : Bool :=
  db.profiles.any (fun p => p.id == pid)

/-- The foreign keys of `consultations`
(`doctor_id uuid REFERENCES doctors(id)`, `patient_id uuid REFERENCES profiles(id)`,
src/unnamed/part_000 lines 206-207), checked on the row as it would be after
the update.  Postgres re-checks a referencing column on UPDATE only when its
value changes; a column left at its old (already valid) value is not
re-verified. -/
def rowFkOk (db : DB) (oldRow newRow : Consultation) : Bool :=
  (decide (newRow.doctor_id = oldRow.doctor_id) ||
    (match newRow.doctor_id with
     | some d => isDoctorRow db d
     | none => true)) &&
  (decide (newRow.patient_id = oldRow.patient_id) || profileExists db newRow.patient_id)

/-- Every row written by the statement satisfies some WITH CHECK clause. -/
def updatePolicyOk (db : DB) (uid cid : Nat) (u : ConsultationUpdate) (now : Nat) : Bool :=
  db.consultations.all
    (fun row => !updateTargets db uid cid row ||
      consultationsUpdateCheck db uid (applyUpdate u now row))

/-- Every row written by the statement satisfies the foreign keys. -/
def updateFkOk (db : DB) (uid cid : Nat) (u : ConsultationUpdate) (now : Nat) : Bool :=
  db.consultations.all
    (fun row => !updateTargets db uid cid row ||
      rowFkOk db row (applyUpdate u now row))

/-- Semantics of `supabase.from('consultations').update(u).eq('id', cid)` under
the RLS policies and foreign keys of src/unnamed/part_000.  Rows failing USING
are silently skipped; if any written row fails WITH CHECK or a foreign key the
whole statement errors and the store is unchanged; otherwise all targeted rows
are updated (and the trigger stamps `updated_at`). -/
def runConsultationUpdate (db : DB) (uid cid : Nat) (u : ConsultationUpdate) (now : Nat) :
    DB × Option StoreError :=
  if updatePolicyOk db uid cid u now then
    if updateFkOk db uid cid u now then
      ({ db with
          consultations := db.consultations.map
            (fun row => if updateTargets db uid cid row then applyUpdate u now row else row) },
        none)
    else
      (db, some StoreError.foreignKeyViolation)
  else
    (db, some StoreError.rowSecurityViolation)

/-- `handleAcceptConsultation` (src/app/(tabs)/consultations.tsx, lines 84-99):
`update({ doctor_id: profile?.id, status: 'assigned' }).eq('id', consultationId)`. -/
def handleAcceptConsultation (db : DB) (uid cid now : Nat) : DB × Option StoreError :=
  runConsultationUpdate db uid cid
    { doctor_id := some (some uid), status := some Status.assigned } now

/-- `handleStartConsultation` (src/app/(tabs)/consultations.tsx, lines 101-115):
`update({ status: 'in_progress', started_at: new Date().toISOString() }).eq('id', consultationId)`. -/
def handleStartConsultation (db : DB) (uid cid now : Nat) : DB × Option StoreError :=
  runConsultationUpdate db uid cid
    { status := some Status.in_progress, started_at := some (some now) } now

/-- `handleCompleteConsultation` (src/app/(tabs)/consultations.tsx, lines 117-132):
`update({ status: 'completed', completed_at: new Date().toISOString() }).eq('id', consultationId)`. -/
def handleCompleteConsultation (db : DB) (uid cid now : Nat) : DB × Option StoreError :=
  runConsultationUpdate db uid cid
    { status := some Status.completed, completed_at := some (some now) } now

/-- Outcome of the create flow: either the client-side validation alert
("Please describe your symptoms"), or a store-side policy rejection, or the
identity assigned to the inserted row. -/
inductive CreateError where
  | emptySymptoms
  | rowSecurityViolation
deriving DecidableEq, Repr

/-- The character class JavaScript's `String.prototype.trim()` strips:
ECMAScript WhiteSpace (TAB, VT, FF, SP, NBSP, ZWNBSP/BOM, and the Unicode
Space_Separator category U+1680, U+2000..U+200A, U+202F, U+205F, U+3000)
plus LineTerminator (LF, CR, LS U+2028, PS U+2029). -/
def isJsWhitespace (c : Char) : Bool :=
  c.toNat = 0x9 || c.toNat = 0xA || c.toNat = 0xB || c.toNat = 0xC || c.toNat = 0xD ||
    c.toNat = 0x20 || c.toNat = 0xA0 || c.toNat = 0x1680 ||
    (0x2000 ≤ c.toNat && c.toNat ≤ 0x200A) ||
    c.toNat = 0x2028 || c.toNat = 0x2029 || c.toNat = 0x202F || c.toNat = 0x205F ||
    c.toNat = 0x3000 || c.toNat = 0xFEFF

/-- JavaScript's `String.prototype.trim()` as used by
`handleRequestConsultation`: strip leading and trailing ECMAScript
whitespace.  (Defined over the character list so that it is
kernel-computable.) -/
def strTrim (s : String) : String :=
  String.mk (((s.toList.dropWhile isJsWhitespace).reverse.dropWhile isJsWhitespace).reverse)

/-- The row inserted by `handleRequestConsultation`: the handler supplies
`patient_id`, trimmed `symptoms`, `urgency_level` and a hard-coded
`status: 'pending'`; `doctor_id` is not supplied, so the column default NULL
applies; `id` comes from `gen_random_uuid()` (modelled by the `nextId`
counter); `created_at`/`updated_at` take the server defaults `now()`. -/
def newConsultationRow (db : DB) (uid : Nat) (symptoms : String) (urgency : Urgency)
    (now : Nat) : Consultation :=
  { id := db.nextId
    patient_id := uid
    doctor_id := none
    status := Status.pending
    urgency_level := urgency
    symptoms := strTrim symptoms
    notes := none
    scheduled_at := none
    started_at := none
    completed_at := none
    created_at := now
    updated_at := now }

/-- `handleRequestConsultation` (src/app/(tabs)/index.tsx, lines 22-48):
validates `symptoms.trim()` client-side (the alert "Please describe your
symptoms"), then runs
`supabase.from('consultations').insert({ patient_id, symptoms, urgency_level, status: 'pending' })`,
which the store admits only through the policy
"Patients can create consultations". -/
def handleRequestConsultation (db : DB) (uid : Nat) (symptoms : String) (urgency : Urgency)
    (now : Nat) : DB × Except CreateError Nat :=
  if strTrim symptoms = "" then
    (db, Except.error CreateError.emptySymptoms)
  else if consultationsInsertCheck db uid (newConsultationRow db uid symptoms urgency now) then
    ({ db with
        consultations := db.consultations ++ [newConsultationRow db uid symptoms urgency now],
        nextId := db.nextId + 1 },
      Except.ok db.nextId)
  else
    (db, Except.error CreateError.rowSecurityViolation)

/-- `fetchConsultations` (src/app/(tabs)/consultations.tsx, lines 34-54): the
store applies the SELECT policy, and the client adds
`or(doctor_id.eq.${profile?.id},status.eq.pending)` for a doctor caller or
`eq('patient_id', profile?.id)` for a patient caller. -/
def fetchConsultations (db : DB) (uid : Nat) (isDoctor : Bool) : List Consultation :=
  (db.consultations.filter (consultationsSelectUsing db uid)).filter
    (fun r =>
      if isDoctor then
        (match r.doctor_id with
         | some d => d == uid
         | none => false) || decide (r.status = Status.pending)
      else
        r.patient_id == uid)

/-- The doctor-assignment invariant claimed for `consultations` rows:
`doctor_id` is non-null iff status is one of assigned, in_progress, completed. -/
def doctorIffAdvanced (r : Consultation) : Bool :=
  r.doctor_id.isSome ==
    (decide (r.status = Status.assigned) || decide (r.status = Status.in_progress) ||
      decide (r.status = Status.completed))

/-- The doctor-assignment invariant over a whole store. -/
def allRowsInv (db : DB) : Bool :=
  db.consultations.all doctorIffAdvanced

/-- Fields that `handleStartConsultation` never writes (everything except
`status`, `started_at` and the trigger-maintained `updated_at`). -/
def startFrame (old new : Consultation) : Prop :=
  new.id = old.id ∧ new.patient_id = old.patient_id ∧ new.doctor_id = old.doctor_id ∧
    new.symptoms = old.symptoms ∧ new.urgency_level = old.urgency_level ∧
    new.notes = old.notes ∧ new.scheduled_at = old.scheduled_at ∧
    new.completed_at = old.completed_at ∧ new.created_at = old.created_at

/-- Fields that `handleCompleteConsultation` never writes (everything except
`status`, `completed_at` and the trigger-maintained `updated_at`). -/
def completeFrame (old new : Consultation) : Prop :=
  new.id = old.id ∧ new.patient_id = old.patient_id ∧ new.doctor_id = old.doctor_id ∧
    new.symptoms = old.symptoms ∧ new.urgency_level = old.urgency_level ∧
    new.notes = old.notes ∧ new.scheduled_at = old.scheduled_at ∧
    new.started_at = old.started_at ∧ new.created_at = old.created_at

/-! Concrete store states used by the counterexamples, the code-bug
demonstration and the witnesses.  All of them satisfy the schema's
foreign keys: every `doctor_id` refers to a `doctors` row and every
`patient_id` to a `profiles` row. -/

/-- A doctor profile with identity 1. -/
def profD1 : Profile :=
  { id := 1, user_type := UserType.doctor, full_name := "Dr A", phone := none,
    created_at := 0, updated_at := 0 }

/-- A patient profile with identity 2. -/
def profP2 : Profile :=
  { id := 2, user_type := UserType.patient, full_name := "Pat B", phone := none,
    created_at := 0, updated_at := 0 }

/-- A patient profile with identity 3. -/
def profP3 : Profile :=
  { id := 3, user_type := UserType.patient, full_name := "Pat C", phone := none,
    created_at := 0, updated_at := 0 }

/-- A doctor profile with identity 9. -/
def profD9 : Profile :=
  { id := 9, user_type := UserType.doctor, full_name := "Dr D", phone := none,
    created_at := 0, updated_at := 0 }

/-- The `doctors` row of profile 1. -/
def docRow1 : Doctor :=
  { id := 1, specialization := "General", license_number := "L1", is_available := true,
    years_of_experience := 5, bio := none, created_at := 0, updated_at := 0 }

/-- The `doctors` row of profile 9. -/
def docRow9 : Doctor :=
  { id := 9, specialization := "General", license_number := "L9", is_available := true,
    years_of_experience := 2, bio := none, created_at := 0, updated_at := 0 }

/-- A consultation of patient 2, already claimed by doctor 1, status assigned. -/
def rowAssigned : Consultation :=
  { id := 10, patient_id := 2, doctor_id := some 1, status := Status.assigned,
    urgency_level := Urgency.high, symptoms := "fever", notes := none,
    scheduled_at := none, started_at := none, completed_at := none,
    created_at := 0, updated_at := 0 }

/-- A consultation of patient 2, unclaimed, status cancelled. -/
def rowCancelled : Consultation :=
  { rowAssigned with doctor_id := none, status := Status.cancelled }

/-- A consultation of patient 2, unclaimed, status pending. -/
def rowPending : Consultation :=
  { rowAssigned with doctor_id := none, status := Status.pending }

/-- A consultation of patient 3, unclaimed, status pending. -/
def rowPendingP3 : Consultation :=
  { rowAssigned with id := 12, patient_id := 3, doctor_id := none, status := Status.pending }

/-- A consultation whose patient is identity 1 and whose doctor is identity 9. -/
def rowPatient1Doc9 : Consultation :=
  { rowAssigned with patient_id := 1, doctor_id := some 9 }

/-- Store with one assigned consultation held by doctor 1. -/
def dbA : DB :=
  { profiles := [profD1, profP2], doctors := [docRow1],
    consultations := [rowAssigned], nextId := 11 }

/-- Store with one cancelled, unclaimed consultation. -/
def dbB : DB :=
  { profiles := [profD1, profP2], doctors := [docRow1],
    consultations := [rowCancelled], nextId := 11 }

/-- Store with patient 2 registered and no consultations yet. -/
def dbC0 : DB :=
  { profiles := [profP2], doctors := [], consultations := [], nextId := 10 }

/-- Store with one pending, unclaimed consultation and doctor 1 registered. -/
def dbC4 : DB :=
  { profiles := [profD1, profP2], doctors := [docRow1],
    consultations := [rowPending], nextId := 11 }

/-- Store with one pending consultation owned by patient 2, no doctors. -/
def dbD : DB :=
  { profiles := [profP2], doctors := [], consultations := [rowPending], nextId := 11 }

/-- Store where identity 1 has a doctor-role profile, is a registered doctor,
and is also the patient of a consultation currently assigned to doctor 9.
Reachable because the profiles UPDATE policy lets an account flip its own
`user_type` after creating a consultation as a patient. -/
def dbE : DB :=
  { profiles := [profD1, profD9], doctors := [docRow1, docRow9],
    consultations := [rowPatient1Doc9], nextId := 11 }

/-- Store with patients 2 and 3 and a pending consultation owned by patient 3. -/
def dbF : DB :=
  { profiles := [profP2, profP3], doctors := [],
    consultations := [rowPendingP3], nextId := 13 }

/-- A profile with identity 4 whose `user_type` is currently patient. -/
def profP4 : Profile :=
  { id := 4, user_type := UserType.patient, full_name := "Flip D", phone := none,
    created_at := 0, updated_at := 0 }

/-- The `doctors` row of identity 4, created while its profile still had role
doctor (the doctors INSERT policy checks the role only at insert time). -/
def docRow4 : Doctor :=
  { id := 4, specialization := "General", license_number := "L4", is_available := true,
    years_of_experience := 1, bio := none, created_at := 0, updated_at := 0 }

/-- A consultation of patient 2, claimed by identity 4, status assigned. -/
def rowClaimedBy4 : Consultation :=
  { rowAssigned with id := 11, doctor_id := some 4 }

/-- Store where identity 4 claimed consultation 11 while a doctor and then
flipped its own `user_type` to patient — permitted because the profiles
UPDATE policy ("Users can update own profile") restricts no columns — keeping
its `doctors` row. -/
def dbG : DB :=
  { profiles := [profP4, profP2], doctors := [docRow4],
    consultations := [rowClaimedBy4], nextId := 12 }

/-- The payload of a patient-side update that only sets `status`. -/
def cancelPayload : ConsultationUpdate := { status := some Status.cancelled }

/-! Helper lemmas about the conditional-update semantics. -/

/-- An update statement never touches the `doctors` table. -/
theorem runUpdate_fst_doctors (db : DB) (uid cid : Nat) (u : ConsultationUpdate) (now : Nat) :
    (runConsultationUpdate db uid cid u now).1.doctors = db.doctors := by
  unfold runConsultationUpdate
  split
  · split <;> rfl
  · rfl

/-- Elementwise reading of the WITH CHECK side condition. -/
theorem updatePolicyOk_iff (db : DB) (uid cid : Nat) (u : ConsultationUpdate) (now : Nat) :
    updatePolicyOk db uid cid u now = true ↔
      ∀ r ∈ db.consultations, updateTargets db uid cid r = true →
        consultationsUpdateCheck db uid (applyUpdate u now r) = true := by
  unfold updatePolicyOk
  rw [List.all_eq_true]
  constructor
  · intro h r hr ht
    have hh := h r hr
    rw [ht] at hh
    simpa using hh
  · intro h r hr
    by_cases ht : updateTargets db uid cid r = true
    · rw [ht]
      simpa using h r hr ht
    · rw [Bool.not_eq_true] at ht
      rw [ht]
      rfl

/-- Elementwise reading of the foreign-key side condition. -/
theorem updateFkOk_iff (db : DB) (uid cid : Nat) (u : ConsultationUpdate) (now : Nat) :
    updateFkOk db uid cid u now = true ↔
      ∀ r ∈ db.consultations, updateTargets db uid cid r = true →
        rowFkOk db r (applyUpdate u now r) = true := by
  unfold updateFkOk
  rw [List.all_eq_true]
  constructor
  · intro h r hr ht
    have hh := h r hr
    rw [ht] at hh
    simpa using hh
  · intro h r hr
    by_cases ht : updateTargets db uid cid r = true
    · rw [ht]
      simpa using h r hr ht
    · rw [Bool.not_eq_true] at ht
      rw [ht]
      rfl

/-- The statement succeeds exactly when every targeted row still satisfies
some WITH CHECK clause and the foreign keys after the payload is applied. -/
theorem runUpdate_ok_iff (db : DB) (uid cid : Nat) (u : ConsultationUpdate) (now : Nat) :
    (runConsultationUpdate db uid cid u now).2 = none ↔
      updatePolicyOk db uid cid u now = true ∧ updateFkOk db uid cid u now = true := by
  unfold runConsultationUpdate
  by_cases hA : updatePolicyOk db uid cid u now = true
  · rw [if_pos hA]
    by_cases hB : updateFkOk db uid cid u now = true
    · rw [if_pos hB]
      simp [hA, hB]
    · rw [if_neg hB]
      simp [hA, hB]
  · rw [if_neg hA]
    simp [hA]

/-- A failed statement leaves the store unchanged. -/
theorem runUpdate_fst_of_err (db : DB) (uid cid : Nat) (u : ConsultationUpdate) (now : Nat)
    (h : ¬ (runConsultationUpdate db uid cid u now).2 = none) :
    (runConsultationUpdate db uid cid u now).1 = db := by
  unfold runConsultationUpdate at h ⊢
  by_cases hA : updatePolicyOk db uid cid u now = true
  · rw [if_pos hA] at h ⊢
    by_cases hB : updateFkOk db uid cid u now = true
    · rw [if_pos hB] at h
      exact absurd rfl h
    · rw [if_neg hB]
  · rw [if_neg hA]

/-- On success, the consultations table is the image of the pointwise
conditional update. -/
theorem runUpdate_consultations_of_ok (db : DB) (uid cid : Nat) (u : ConsultationUpdate)
    (now : Nat) (hok : (runConsultationUpdate db uid cid u now).2 = none) :
    (runConsultationUpdate db uid cid u now).1.consultations =
      db.consultations.map
        (fun row => if updateTargets db uid cid row then applyUpdate u now row else row) := by
  obtain ⟨hA, hB⟩ := (runUpdate_ok_iff db uid cid u now).mp hok
  unfold runConsultationUpdate
  rw [if_pos hA, if_pos hB]

/-- Pointwise description of an update, valid in both the success and the
rollback case: every old row is related to the corresponding new row by `R`
provided `R` holds reflexively and across the payload application. -/
theorem runUpdate_forall2 (db : DB) (uid cid : Nat) (u : ConsultationUpdate) (now : Nat)
    (R : Consultation → Consultation → Prop)
    (h1 : ∀ r ∈ db.consultations, R r r)
    (h2 : ∀ r ∈ db.consultations, updateTargets db uid cid r = true → R r (applyUpdate u now r)) :
    List.Forall₂ R db.consultations (runConsultationUpdate db uid cid u now).1.consultations := by
  unfold runConsultationUpdate
  by_cases hA : updatePolicyOk db uid cid u now = true
  · rw [if_pos hA]
    by_cases hB : updateFkOk db uid cid u now = true
    · rw [if_pos hB]
      simp only []
      rw [List.forall₂_map_right_iff, List.forall₂_same]
      intro r hr
      by_cases ht : updateTargets db uid cid r = true
      · rw [if_pos ht]
        exact h2 r hr ht
      · rw [Bool.not_eq_true] at ht
        rw [if_neg (by rw [ht]; exact Bool.false_ne_true)]
        exact h1 r hr
    · rw [if_neg hB]
      rw [List.forall₂_same]
      exact h1
  · rw [if_neg hA]
    rw [List.forall₂_same]
    exact h1

/-- Pointwise description of a successful update, with the reflexive case
restricted to rows the statement did not target. -/
theorem runUpdate_forall2_of_ok (db : DB) (uid cid : Nat) (u : ConsultationUpdate) (now : Nat)
    (R : Consultation → Consultation → Prop)
    (hok : (runConsultationUpdate db uid cid u now).2 = none)
    (h1 : ∀ r ∈ db.consultations, updateTargets db uid cid r = false → R r r)
    (h2 : ∀ r ∈ db.consultations, updateTargets db uid cid r = true → R r (applyUpdate u now r)) :
    List.Forall₂ R db.consultations (runConsultationUpdate db uid cid u now).1.consultations := by
  rw [runUpdate_consultations_of_ok db uid cid u now hok]
  rw [List.forall₂_map_right_iff, List.forall₂_same]
  intro r hr
  by_cases ht : updateTargets db uid cid r = true
  · rw [if_pos ht]
    exact h2 r hr ht
  · rw [Bool.not_eq_true] at ht
    rw [if_neg (by rw [ht]; exact Bool.false_ne_true)]
    exact h1 r hr ht

/-- A targeted row matches the client's id filter. -/
theorem targets_id (db : DB) (uid cid : Nat) (r : Consultation)
    (ht : updateTargets db uid cid r = true) : r.id = cid := by
  unfold updateTargets at ht
  rw [Bool.and_eq_true] at ht
  exact beq_iff_eq.mp ht.1

/-- A targeted row satisfies some USING clause. -/
theorem targets_using (db : DB) (uid cid : Nat) (r : Consultation)
    (ht : updateTargets db uid cid r = true) :
    consultationsUpdateUsing db uid r = true := by
  unfold updateTargets at ht
  rw [Bool.and_eq_true] at ht
  exact ht.2

/-- A caller with no `doctors` row can only target rows they own as patient. -/
theorem targets_of_not_doctor (db : DB) (uid cid : Nat) (r : Consultation)
    (hnd : isDoctorRow db uid = false)
    (ht : updateTargets db uid cid r = true) :
    r.id = cid ∧ r.patient_id = uid := by
  refine ⟨targets_id db uid cid r ht, ?_⟩
  have hu := targets_using db uid cid r ht
  unfold consultationsUpdateUsing patientsUpdateUsing doctorsUpdateUsing at hu
  rw [Bool.or_eq_true] at hu
  rcases hu with hp | hdoc
  · exact beq_iff_eq.mp hp
  · exfalso
    cases hdd : r.doctor_id <;> rw [hdd] at hdoc <;> simp [hnd] at hdoc

/-- No USING clause admits a row that is held by a different doctor and not
owned by the caller as patient. -/
theorem using_false_of_foreign (db : DB) (uid : Nat) (r : Consultation) (d : Nat)
    (hdd : r.doctor_id = some d) (hdne : d ≠ uid) (hpne : r.patient_id ≠ uid) :
    consultationsUpdateUsing db uid r = false := by
  unfold consultationsUpdateUsing patientsUpdateUsing doctorsUpdateUsing
  rw [hdd]
  simp [hpne, hdne]

/-- Mapping a function that fixes every element of a list is the identity. -/
theorem map_eq_self_of_fix {α : Type} (l : List α) (f : α → α)
    (h : ∀ a ∈ l, f a = a) : l.map f = l := by
  induction l with
  | nil => rfl
  | cons x xs ih =>
    rw [List.map_cons, h x (by simp), ih (fun a ha => h a (by simp [ha]))]

/-! Claim C1. -/

/-- C1, counterexample: `dbB` holds one consultation with status `cancelled`
and `doctor_id` null.  The claim says the accept (claim) operation must fail
with a conflict error and leave the row unchanged whenever the current status
is not `pending`; instead the operation reports no error and rewrites the row
to `assigned` with `doctor_id` = the caller, because neither the client filter
(`eq('id', ...)` only) nor the UPDATE policies consult `status`. -/
theorem claim_accept_ignores_status_cex :
    (dbB.consultations.map (fun r => (r.status, r.doctor_id))) = [(Status.cancelled, none)] ∧
    isDoctorRow dbB 1 = true ∧
    (handleAcceptConsultation dbB 1 10 3).2 = none ∧
    ((handleAcceptConsultation dbB 1 10 3).1.consultations.map (fun r => (r.status, r.doctor_id)))
      = [(Status.assigned, some 1)] := by
  decide

/-! Claim C2. -/

/-- C2, counterexample: in `dbA` consultation 10 is assigned to doctor 1.
The claim says the second of two consecutive `start` calls must fail with
`InvalidTransition`; instead both calls succeed — the second one re-applies
the transition and overwrites `started_at` — because the handler's update is
filtered only by `id` and the UPDATE policies never look at `status`. -/
theorem start_twice_succeeds_cex :
    (dbA.consultations.map (fun r => (r.status, r.doctor_id))) = [(Status.assigned, some 1)] ∧
    (handleStartConsultation dbA 1 10 3).2 = none ∧
    (handleStartConsultation (handleStartConsultation dbA 1 10 3).1 1 10 4).2 = none ∧
    ((handleStartConsultation (handleStartConsultation dbA 1 10 3).1 1 10 4).1.consultations.map
      (fun r => (r.status, r.started_at))) = [(Status.in_progress, some 4)] := by
  decide

/-! Claim C3. -/

/-- C3, counterexample: starting from `dbC0`, patient 2 creates a consultation
(the resulting store satisfies the invariant), then issues a patient-side
update setting `status := 'completed'`.  The store accepts it — the policy
"Patients can update own consultations" restricts no columns — and the
resulting row has `status = completed` with `doctor_id` null, violating the
claimed invariant on a store reachable through the exposed operations. -/
theorem invariant_broken_by_patient_update_cex :
    (handleRequestConsultation dbC0 2 "fever" Urgency.high 0).2.toOption = some 10 ∧
    allRowsInv (handleRequestConsultation dbC0 2 "fever" Urgency.high 0).1 = true ∧
    (runConsultationUpdate (handleRequestConsultation dbC0 2 "fever" Urgency.high 0).1 2 10
      { status := some Status.completed } 1).2 = none ∧
    allRowsInv (runConsultationUpdate (handleRequestConsultation dbC0 2 "fever" Urgency.high 0).1
      2 10 { status := some Status.completed } 1).1 = false := by
  decide

/-! Claim C4. -/

/-- C4 (code bug): in `dbC4`, identity 1 is a registered doctor and
consultation 10 is pending and unclaimed, yet the SELECT policy
"Patients can view own consultations" — the only SELECT policy on the table —
makes the row invisible to doctor 1, so the doctor-side query of
`fetchConsultations` returns nothing.  This contradicts the schema's own
security documentation ("Doctors can view all pending consultations and their
assigned consultations", src/unnamed/part_000 line 173) and the client query
`or(doctor_id.eq...,status.eq.pending)` written against that intent. -/
theorem pending_rows_invisible_to_doctors :
    profileRole dbC4 1 = some UserType.doctor ∧
    isDoctorRow dbC4 1 = true ∧
    (dbC4.consultations.map (fun r => (r.status, r.doctor_id, r.patient_id)))
      = [(Status.pending, none, 2)] ∧
    consultationsSelectUsing dbC4 1 rowPending = false ∧
    fetchConsultations dbC4 1 true = [] := by
  decide

/-! Claim C5. -/

/-- C5, counterexample: in `dbD`, patient 2 owns pending consultation 10 and
issues an update whose payload sets `status`.  The claim says status is never
settable through the patient update path; instead the store accepts the write
and the row's status changes, because the policy checks only
`patient_id = auth.uid()` and restricts no columns. -/
theorem patient_update_sets_status_cex :
    (dbD.consultations.map (fun r => (r.status, r.patient_id))) = [(Status.pending, 2)] ∧
    (runConsultationUpdate dbD 2 10 cancelPayload 1).2 = none ∧
    ((runConsultationUpdate dbD 2 10 cancelPayload 1).1.consultations.map (fun r => r.status))
      = [Status.cancelled] := by
  decide

/-! Claim C7. -/

/-- C7, counterexample: in `dbE`, identity 1 currently has role doctor and a
`doctors` row, consultation 10 is assigned to doctor 9 ≠ 1, but its
`patient_id` is 1 (the caller created it as a patient before switching role,
which the profiles UPDATE policy permits).  The claim says `start` can never
succeed for such a caller; instead the update is admitted through the
"Patients can update own consultations" policy and the row moves to
`in_progress`. -/
theorem assigned_doctor_bypass_via_patient_row_cex :
    profileRole dbE 1 = some UserType.doctor ∧
    isDoctorRow dbE 1 = true ∧
    (dbE.consultations.map (fun r => (r.patient_id, r.doctor_id, r.status)))
      = [(1, some 9, Status.assigned)] ∧
    (handleStartConsultation dbE 1 10 3).2 = none ∧
    ((handleStartConsultation dbE 1 10 3).1.consultations.map (fun r => r.status))
      = [Status.in_progress] := by
  decide

/-! Claim C8. -/

/-- C8: for a caller with a patient-role profile and symptoms whose trimmed
text is non-empty, `handleRequestConsultation` appends exactly one new row to
the store — with status `pending` and `doctor_id` null, the status and doctor
being hard-coded by the handler irrespective of any other input — and the
operation yields the identity the store assigned to that row. -/
theorem create_inserts_single_pending_row (db : DB) (uid : Nat) (sym : String)
    (urg : Urgency) (now : Nat)
    (hs : ¬ strTrim sym = "") (hp : hasPatientProfile db uid = true) :
    handleRequestConsultation db uid sym urg now =
      ({ db with
          consultations := db.consultations ++ [newConsultationRow db uid sym urg now],
          nextId := db.nextId + 1 },
        Except.ok db.nextId) ∧
    (newConsultationRow db uid sym urg now).status = Status.pending ∧
    (newConsultationRow db uid sym urg now).doctor_id = none ∧
    (newConsultationRow db uid sym urg now).patient_id = uid ∧
    (newConsultationRow db uid sym urg now).id = db.nextId := by
  refine ⟨?_, rfl, rfl, rfl, rfl⟩
  unfold handleRequestConsultation
  rw [if_neg hs, if_pos]
  unfold consultationsInsertCheck newConsultationRow
  rw [Bool.and_eq_true]
  exact ⟨by simp, hp⟩

/-- C8, witness: concrete instance on `dbC0`. -/
theorem create_inserts_single_pending_row_witness :
    handleRequestConsultation dbC0 2 "fever" Urgency.high 0 =
      ({ dbC0 with
          consultations := dbC0.consultations ++ [newConsultationRow dbC0 2 "fever" Urgency.high 0],
          nextId := dbC0.nextId + 1 },
        Except.ok dbC0.nextId) :=
  (create_inserts_single_pending_row dbC0 2 "fever" Urgency.high 0 (by decide) (by decide)).1

/-! Claim C9. -/

/-- C9: a create call whose symptoms text trims to empty (in particular the
empty string) is rejected by the client-side validation before any store
write: the result reports the validation failure and the store is returned
unchanged — no row is persisted. -/
theorem create_empty_symptoms_rejected (db : DB) (uid : Nat) (sym : String)
    (urg : Urgency) (now : Nat) (hs : strTrim sym = "") :
    handleRequestConsultation db uid sym urg now = (db, Except.error CreateError.emptySymptoms) := by
  unfold handleRequestConsultation
  rw [if_pos hs]

/-- C9, witness: the empty symptoms string on `dbC0`. -/
theorem create_empty_symptoms_rejected_witness :
    handleRequestConsultation dbC0 2 "" Urgency.low 0 = (dbC0, Except.error CreateError.emptySymptoms) :=
  create_empty_symptoms_rejected dbC0 2 "" Urgency.low 0 (by decide)

/-! Claim C10. -/

/-- C10: whatever state the store is in and whoever the caller is, `start`
writes only `status` and `started_at`, and `complete` writes only `status`
and `completed_at` (plus the trigger-maintained `updated_at`); every other
column of every row — `id`, `patient_id`, `doctor_id`, `symptoms`,
`urgency_level`, `notes`, `scheduled_at`, `created_at`, and the respective
other timestamp — is unchanged, both on success and on rollback. -/
theorem start_complete_write_only_status_and_timestamp (db : DB) (uid cid now : Nat) :
    List.Forall₂ startFrame db.consultations
      (handleStartConsultation db uid cid now).1.consultations ∧
    List.Forall₂ completeFrame db.consultations
      (handleCompleteConsultation db uid cid now).1.consultations := by
  constructor
  · unfold handleStartConsultation
    apply runUpdate_forall2
    · intro r _
      exact ⟨rfl, rfl, rfl, rfl, rfl, rfl, rfl, rfl, rfl⟩
    · intro r _ _
      exact ⟨rfl, rfl, rfl, rfl, rfl, rfl, rfl, rfl, rfl⟩
  · unfold handleCompleteConsultation
    apply runUpdate_forall2
    · intro r _
      exact ⟨rfl, rfl, rfl, rfl, rfl, rfl, rfl, rfl, rfl⟩
    · intro r _ _
      exact ⟨rfl, rfl, rfl, rfl, rfl, rfl, rfl, rfl, rfl⟩

/-! Claim C6. -/

/-- C6, counterexample: identity 4 in `dbG` has a patient-role profile but
still holds a `doctors` row (it registered as a doctor, claimed consultation
11 — owned by patient 2 — and then flipped its own `user_type` to patient,
which the column-unrestricted profiles UPDATE policy permits).  The claim
says a caller with role patient can neither read nor update a consultation
whose `patient_id` is not theirs; instead the SELECT policy shows identity 4
the row (via the `doctor_id IN (...)` disjunct, which never consults the
profile role) and its `start` update succeeds, moving the row to
`in_progress`. -/
theorem patient_role_with_stale_doctors_row_cex :
    profileRole dbG 4 = some UserType.patient ∧
    (dbG.consultations.map (fun r => (r.patient_id, r.doctor_id, r.status)))
      = [(2, some 4, Status.assigned)] ∧
    consultationsSelectUsing dbG 4 rowClaimedBy4 = true ∧
    (handleStartConsultation dbG 4 11 3).2 = none ∧
    ((handleStartConsultation dbG 4 11 3).1.consultations.map (fun r => r.status))
      = [Status.in_progress] := by
  decide

/-- C6, amended: a caller whose profile role is patient AND who has no
`doctors` row — the data-model's intended notion of a patient, which the
program enforces only at `doctors` INSERT time, not across later role
changes — can neither see nor change any consultation whose `patient_id`
is not their own identity: the SELECT policy evaluates false (so no read —
including `fetchConsultations` in either mode — ever shows them the row) and
any update statement they issue, including a cancel, leaves every such row
unchanged. -/
theorem patient_cannot_touch_foreign_consultations (db : DB) (uid cid now : Nat)
    (u : ConsultationUpdate)
    (hrole : profileRole db uid = some UserType.patient)
    (hnd : isDoctorRow db uid = false) :
    (∀ row ∈ db.consultations, row.patient_id ≠ uid →
        consultationsSelectUsing db uid row = false ∧
        ∀ b, row ∉ fetchConsultations db uid b) ∧
    List.Forall₂ (fun old new => old.patient_id ≠ uid → new = old)
      db.consultations (runConsultationUpdate db uid cid u now).1.consultations := by
  constructor
  · intro row hrow hneq
    have hsel : consultationsSelectUsing db uid row = false := by
      unfold consultationsSelectUsing
      cases hdd : row.doctor_id with
      | none => simp [hneq]
      | some d => simp [hneq, hnd]
    refine ⟨hsel, fun b hmem => ?_⟩
    unfold fetchConsultations at hmem
    have h1 := (List.mem_filter.mp hmem).1
    have h2 := (List.mem_filter.mp h1).2
    rw [hsel] at h2
    exact Bool.noConfusion h2
  · apply runUpdate_forall2
    · intro r _ _
      rfl
    · intro r hr ht hneq
      exact absurd (targets_of_not_doctor db uid cid r hnd ht).2 hneq

/-- C6, witness: patient 2 in `dbF` cannot see patient 3's pending row. -/
theorem patient_cannot_touch_foreign_consultations_witness :
    consultationsSelectUsing dbF 2 rowPendingP3 = false :=
  ((patient_cannot_touch_foreign_consultations dbF 2 12 1 cancelPayload (by decide)
      (by decide)).1 rowPendingP3 (by decide) (by decide)).1

/-! Claim C7. -/

/-- C7, amended: `start` and `complete` leave unchanged every consultation
whose `doctor_id` is non-null and different from the caller, PROVIDED the
caller is also not the row's `patient_id`; when the caller is the row's
patient, the "Patients can update own consultations" policy admits the write
even though the row is held by a different doctor (see the counterexample). -/
theorem start_complete_denied_for_foreign_doctor (db : DB) (uid cid now : Nat) :
    List.Forall₂ (fun old new => ∀ d, old.doctor_id = some d → d ≠ uid →
        old.patient_id ≠ uid → new = old)
      db.consultations (handleStartConsultation db uid cid now).1.consultations ∧
    List.Forall₂ (fun old new => ∀ d, old.doctor_id = some d → d ≠ uid →
        old.patient_id ≠ uid → new = old)
      db.consultations (handleCompleteConsultation db uid cid now).1.consultations := by
  constructor
  · unfold handleStartConsultation
    apply runUpdate_forall2
    · intro r _ d _ _ _
      rfl
    · intro r hr ht d hdd hdne hpne
      exfalso
      have hu := targets_using db uid cid r ht
      rw [using_false_of_foreign db uid r d hdd hdne hpne] at hu
      exact Bool.noConfusion hu
  · unfold handleCompleteConsultation
    apply runUpdate_forall2
    · intro r _ d _ _ _
      rfl
    · intro r hr ht d hdd hdne hpne
      exfalso
      have hu := targets_using db uid cid r ht
      rw [using_false_of_foreign db uid r d hdd hdne hpne] at hu
      exact Bool.noConfusion hu

/-- C7, witness: caller 5 (neither the doctor nor the patient of `rowAssigned`)
cannot move it through `start`. -/
theorem start_complete_denied_for_foreign_doctor_witness :
    List.Forall₂ (fun old new => ∀ d, old.doctor_id = some d → d ≠ 5 →
        old.patient_id ≠ 5 → new = old)
      dbA.consultations (handleStartConsultation dbA 5 10 3).1.consultations :=
  (start_complete_denied_for_foreign_doctor dbA 5 10 3).1

/-- C1, amended: the accept (claim) operation is a single conditional update
whose effective precondition — enforced atomically by the UPDATE policies at
the store — is only about `doctor_id`, never about `status`: for a caller
registered in `doctors` (the claim's doctor caller) the operation never
reports an error, so no ConflictError exists to surface; every row held by a
different doctor (and not owned by the caller as patient) is left untouched
because no USING clause admits it — the losing racer's update simply matches
zero rows and reports success; and every row with a null `doctor_id` matching
the id filter is rewritten to `doctor_id = caller`, `status = assigned`
whatever its current status. -/
theorem claim_is_conditional_on_doctor_id_only (db : DB) (uid cid now : Nat)
    (hd : isDoctorRow db uid = true) :
    (handleAcceptConsultation db uid cid now).2 = none ∧
    List.Forall₂ (fun old new =>
        (∀ d, old.doctor_id = some d → d ≠ uid → old.patient_id ≠ uid → new = old) ∧
        (old.id = cid → old.doctor_id = none → new.doctor_id = some uid ∧
          new.status = Status.assigned))
      db.consultations (handleAcceptConsultation db uid cid now).1.consultations := by
  have hok : (handleAcceptConsultation db uid cid now).2 = none := by
    unfold handleAcceptConsultation
    rw [runUpdate_ok_iff]
    constructor
    · rw [updatePolicyOk_iff]
      intro r hr ht
      have hu := targets_using db uid cid r ht
      unfold consultationsUpdateUsing patientsUpdateUsing doctorsUpdateUsing at hu
      rw [Bool.or_eq_true] at hu
      have hdapp : (applyUpdate { doctor_id := some (some uid), status := some Status.assigned }
          now r).doctor_id = some uid := rfl
      have hpapp : (applyUpdate { doctor_id := some (some uid), status := some Status.assigned }
          now r).patient_id = r.patient_id := rfl
      unfold consultationsUpdateCheck patientsUpdateCheck doctorsUpdateCheck
      rw [hdapp, hpapp]
      rcases hu with hp | hdoc
      · simp [beq_iff_eq.mp hp]
      · simp [hd]
    · rw [updateFkOk_iff]
      intro r hr ht
      have hdapp : (applyUpdate { doctor_id := some (some uid), status := some Status.assigned }
          now r).doctor_id = some uid := rfl
      have hpapp : (applyUpdate { doctor_id := some (some uid), status := some Status.assigned }
          now r).patient_id = r.patient_id := rfl
      unfold rowFkOk
      rw [hdapp, hpapp]
      simp [hd]
  refine ⟨hok, ?_⟩
  unfold handleAcceptConsultation at hok ⊢
  apply runUpdate_forall2_of_ok _ _ _ _ _ _ hok
  · intro r hr hnt
    constructor
    · intro d _ _ _
      rfl
    · intro hid hdd
      exfalso
      have ht : updateTargets db uid cid r = true := by
        unfold updateTargets consultationsUpdateUsing patientsUpdateUsing doctorsUpdateUsing
        rw [Bool.and_eq_true]
        refine ⟨beq_iff_eq.mpr hid, ?_⟩
        rw [Bool.or_eq_true]
        right
        rw [hdd]
        exact hd
      rw [ht] at hnt
      exact Bool.noConfusion hnt
  · intro r hr ht
    constructor
    · intro d hdd hdne hpne
      exfalso
      have hu := targets_using db uid cid r ht
      rw [using_false_of_foreign db uid r d hdd hdne hpne] at hu
      exact Bool.noConfusion hu
    · intro _ _
      exact ⟨rfl, rfl⟩

/-- C1, witness: the amended statement instantiated on `dbA` with the
registered doctor 1 as the caller. -/
theorem claim_is_conditional_on_doctor_id_only_witness :
    (handleAcceptConsultation dbA 1 10 3).2 = none :=
  (claim_is_conditional_on_doctor_id_only dbA 1 10 3 (by decide)).1

/-- A doctor-side update whose payload touches neither `doctor_id` nor
`patient_id` succeeds whenever every row matching the id filter is already
held by the caller. -/
theorem held_update_ok (db : DB) (uid cid : Nat) (u : ConsultationUpdate) (now : Nat)
    (hd : isDoctorRow db uid = true) (hud : u.doctor_id = none) (hup : u.patient_id = none)
    (hall : ∀ r ∈ db.consultations, r.id = cid → r.doctor_id = some uid) :
    (runConsultationUpdate db uid cid u now).2 = none := by
  rw [runUpdate_ok_iff]
  constructor
  · rw [updatePolicyOk_iff]
    intro r hr ht
    have hid := targets_id db uid cid r ht
    have hdd := hall r hr hid
    have hdapp : (applyUpdate u now r).doctor_id = some uid := by
      show u.doctor_id.getD r.doctor_id = some uid
      rw [hud, hdd]
      rfl
    unfold consultationsUpdateCheck patientsUpdateCheck doctorsUpdateCheck
    rw [hdapp]
    simp [hd]
  · rw [updateFkOk_iff]
    intro r hr ht
    have hdapp : (applyUpdate u now r).doctor_id = r.doctor_id := by
      show u.doctor_id.getD r.doctor_id = r.doctor_id
      rw [hud]
      rfl
    have hpapp : (applyUpdate u now r).patient_id = r.patient_id := by
      show u.patient_id.getD r.patient_id = r.patient_id
      rw [hup]
      rfl
    unfold rowFkOk
    rw [hdapp, hpapp]
    simp

/-- Under the same hypotheses, every row of the result matching the id filter
is the payload image of a row of the original store. -/
theorem held_update_rows (db : DB) (uid cid : Nat) (u : ConsultationUpdate) (now : Nat)
    (hd : isDoctorRow db uid = true) (hud : u.doctor_id = none) (hup : u.patient_id = none)
    (hall : ∀ r ∈ db.consultations, r.id = cid → r.doctor_id = some uid) :
    ∀ r ∈ (runConsultationUpdate db uid cid u now).1.consultations,
      r.id = cid → ∃ r0, r0 ∈ db.consultations ∧ r = applyUpdate u now r0 := by
  intro r hr hid
  have hok := held_update_ok db uid cid u now hd hud hup hall
  rw [runUpdate_consultations_of_ok db uid cid u now hok] at hr
  obtain ⟨r0, hr0, hre⟩ := List.mem_map.mp hr
  have hid0 : r0.id = cid := by
    by_cases ht : updateTargets db uid cid r0 = true
    · rw [if_pos ht] at hre
      rw [← hre] at hid
      exact hid
    · rw [if_neg ht] at hre
      rw [← hre] at hid
      exact hid
  have hdd0 := hall r0 hr0 hid0
  have ht : updateTargets db uid cid r0 = true := by
    unfold updateTargets consultationsUpdateUsing patientsUpdateUsing doctorsUpdateUsing
    rw [Bool.and_eq_true]
    refine ⟨beq_iff_eq.mpr hid0, ?_⟩
    rw [Bool.or_eq_true]
    right
    rw [hdd0]
    simp [hd]
  rw [if_pos ht] at hre
  exact ⟨r0, hr0, hre.symm⟩

/-- Under the same hypotheses, rows matching the id filter remain held by the
caller after the update. -/
theorem held_update_keeps_assignment (db : DB) (uid cid : Nat) (u : ConsultationUpdate)
    (now : Nat)
    (hd : isDoctorRow db uid = true) (hud : u.doctor_id = none) (hup : u.patient_id = none)
    (hall : ∀ r ∈ db.consultations, r.id = cid → r.doctor_id = some uid) :
    ∀ r ∈ (runConsultationUpdate db uid cid u now).1.consultations,
      r.id = cid → r.doctor_id = some uid := by
  intro r hr hid
  obtain ⟨r0, hr0, hre⟩ := held_update_rows db uid cid u now hd hud hup hall r hr hid
  have hid0 : r0.id = cid := by
    rw [hre] at hid
    exact hid
  have hdd0 := hall r0 hr0 hid0
  rw [hre]
  show u.doctor_id.getD r0.doctor_id = some uid
  rw [hud, hdd0]
  rfl

/-- `start` succeeds whenever the target is held by the calling doctor,
whatever the current status. -/
theorem start_ok_when_held (db : DB) (uid cid t : Nat)
    (hd : isDoctorRow db uid = true)
    (hall : ∀ r ∈ db.consultations, r.id = cid → r.doctor_id = some uid) :
    (handleStartConsultation db uid cid t).2 = none := by
  unfold handleStartConsultation
  exact held_update_ok db uid cid _ t hd rfl rfl hall

/-- `start` keeps the target held by the calling doctor. -/
theorem start_keeps_assignment (db : DB) (uid cid t : Nat)
    (hd : isDoctorRow db uid = true)
    (hall : ∀ r ∈ db.consultations, r.id = cid → r.doctor_id = some uid) :
    ∀ r ∈ (handleStartConsultation db uid cid t).1.consultations,
      r.id = cid → r.doctor_id = some uid := by
  unfold handleStartConsultation
  exact held_update_keeps_assignment db uid cid _ t hd rfl rfl hall

/-- After a successful `start` on a held target, the target's status is
`in_progress` and `started_at` carries the call's timestamp. -/
theorem start_rows_when_held (db : DB) (uid cid t : Nat)
    (hd : isDoctorRow db uid = true)
    (hall : ∀ r ∈ db.consultations, r.id = cid → r.doctor_id = some uid) :
    ∀ r ∈ (handleStartConsultation db uid cid t).1.consultations,
      r.id = cid → r.status = Status.in_progress ∧ r.started_at = some t := by
  intro r hr hid
  unfold handleStartConsultation at hr
  obtain ⟨r0, hr0, hre⟩ := held_update_rows db uid cid _ t hd rfl rfl hall r hr hid
  rw [hre]
  exact ⟨rfl, rfl⟩

/-- `start` does not change the `doctors` table. -/
theorem start_isDoctorRow (db : DB) (uid cid t v : Nat) :
    isDoctorRow (handleStartConsultation db uid cid t).1 v = isDoctorRow db v := by
  unfold handleStartConsultation isDoctorRow
  rw [runUpdate_fst_doctors]

/-! Claim C2. -/

/-- C2, amended: no status-predecessor check exists anywhere in the start /
complete path, and no InvalidTransition error exists anywhere in the code.
Whenever every row matching the id filter is held by the calling doctor,
`start` succeeds regardless of the row's current status, `complete` succeeds
directly as well (skipping `in_progress`), and a second consecutive `start`
succeeds again, re-applying the transition and overwriting `started_at` with
the later timestamp. -/
theorem start_complete_no_predecessor_check (db : DB) (uid cid t1 t2 : Nat)
    (hd : isDoctorRow db uid = true)
    (hall : ∀ r ∈ db.consultations, r.id = cid → r.doctor_id = some uid) :
    (handleStartConsultation db uid cid t1).2 = none ∧
    (handleCompleteConsultation db uid cid t1).2 = none ∧
    (handleStartConsultation (handleStartConsultation db uid cid t1).1 uid cid t2).2 = none ∧
    ∀ r ∈ (handleStartConsultation (handleStartConsultation db uid cid t1).1
        uid cid t2).1.consultations,
      r.id = cid → r.status = Status.in_progress ∧ r.started_at = some t2 := by
  have hd1 : isDoctorRow (handleStartConsultation db uid cid t1).1 uid = true := by
    rw [start_isDoctorRow]
    exact hd
  have hall1 := start_keeps_assignment db uid cid t1 hd hall
  refine ⟨start_ok_when_held db uid cid t1 hd hall, ?_,
    start_ok_when_held _ uid cid t2 hd1 hall1,
    start_rows_when_held _ uid cid t2 hd1 hall1⟩
  unfold handleCompleteConsultation
  exact held_update_ok db uid cid _ t1 hd rfl rfl hall

/-- C2, witness: concrete instance on `dbA` (consultation 10 held by
doctor 1). -/
theorem start_complete_no_predecessor_check_witness :
    (handleStartConsultation dbA 1 10 3).2 = none :=
  (start_complete_no_predecessor_check dbA 1 10 3 4 (by decide) (by decide)).1

/-- A status-only payload that advances to assigned / in_progress / completed
preserves the doctor-assignment invariant, provided the caller is not the
patient of an unassigned target row (the patient escape hatch is exactly what
the C3 counterexample exploits). -/
theorem status_advance_preserves_inv (db : DB) (uid cid now : Nat) (u : ConsultationUpdate)
    (s : Status)
    (hud : u.doctor_id = none) (hup : u.patient_id = none) (hus : u.status = some s)
    (hs : (decide (s = Status.assigned) || decide (s = Status.in_progress) ||
      decide (s = Status.completed)) = true)
    (hinv : allRowsInv db = true)
    (hno : ∀ r ∈ db.consultations, r.id = cid → r.doctor_id = none → r.patient_id ≠ uid) :
    allRowsInv (runConsultationUpdate db uid cid u now).1 = true := by
  unfold allRowsInv at hinv
  rw [List.all_eq_true] at hinv
  by_cases hok : (runConsultationUpdate db uid cid u now).2 = none
  · have hA := ((runUpdate_ok_iff db uid cid u now).mp hok).1
    unfold allRowsInv
    rw [runUpdate_consultations_of_ok db uid cid u now hok, List.all_eq_true]
    intro r hr
    obtain ⟨r0, hr0, hre⟩ := List.mem_map.mp hr
    rw [← hre]
    by_cases ht : updateTargets db uid cid r0 = true
    · rw [if_pos ht]
      cases hdd : r0.doctor_id with
      | some d =>
        unfold doctorIffAdvanced
        have h1 : (applyUpdate u now r0).doctor_id = some d := by
          show u.doctor_id.getD r0.doctor_id = some d
          rw [hud, hdd]
          rfl
        have h2 : (applyUpdate u now r0).status = s := by
          show u.status.getD r0.status = s
          rw [hus]
          rfl
        rw [h1, h2]
        simpa using hs
      | none =>
        exfalso
        have hid0 := targets_id db uid cid r0 ht
        have hpne := hno r0 hr0 hid0 hdd
        have hck := (updatePolicyOk_iff db uid cid u now).mp hA r0 hr0 ht
        unfold consultationsUpdateCheck patientsUpdateCheck doctorsUpdateCheck at hck
        have h1 : (applyUpdate u now r0).doctor_id = none := by
          show u.doctor_id.getD r0.doctor_id = none
          rw [hud, hdd]
          rfl
        have h2 : (applyUpdate u now r0).patient_id = r0.patient_id := by
          show u.patient_id.getD r0.patient_id = r0.patient_id
          rw [hup]
          rfl
        rw [h1, h2] at hck
        simp at hck
        exact hpne hck
    · rw [if_neg ht]
      exact hinv r0 hr0
  · rw [runUpdate_fst_of_err db uid cid u now hok]
    unfold allRowsInv
    rw [List.all_eq_true]
    exact hinv

/-! Claim C3. -/

/-- C3, amended: the doctor-assignment invariant (`doctor_id` non-null iff
status is assigned / in_progress / completed) is preserved by the four
operations the client actually implements — create, accept (claim), start and
complete — the latter two under the proviso that the caller is not the
patient of an unassigned target row; it is NOT an invariant of the full
exposed surface, because the patient-side update path can violate it (see
the counterexample). -/
theorem invariant_preserved_by_client_lifecycle_ops (db : DB) (uid cid : Nat) (sym : String)
    (urg : Urgency) (now : Nat) (hinv : allRowsInv db = true) :
    allRowsInv (handleRequestConsultation db uid sym urg now).1 = true ∧
    allRowsInv (handleAcceptConsultation db uid cid now).1 = true ∧
    ((∀ r ∈ db.consultations, r.id = cid → r.doctor_id = none → r.patient_id ≠ uid) →
      allRowsInv (handleStartConsultation db uid cid now).1 = true ∧
      allRowsInv (handleCompleteConsultation db uid cid now).1 = true) := by
  refine ⟨?_, ?_, fun hno => ⟨?_, ?_⟩⟩
  · unfold handleRequestConsultation
    by_cases he : strTrim sym = ""
    · rw [if_pos he]
      exact hinv
    · rw [if_neg he]
      by_cases hck : consultationsInsertCheck db uid (newConsultationRow db uid sym urg now) = true
      · rw [if_pos hck]
        unfold allRowsInv at hinv ⊢
        rw [List.all_eq_true] at hinv ⊢
        intro r hr
        rcases List.mem_append.mp hr with h | h
        · exact hinv r h
        · rw [List.mem_singleton] at h
          rw [h]
          rfl
      · rw [if_neg hck]
        exact hinv
  · unfold handleAcceptConsultation
    unfold allRowsInv at hinv
    rw [List.all_eq_true] at hinv
    by_cases hok : (runConsultationUpdate db uid cid
        { doctor_id := some (some uid), status := some Status.assigned } now).2 = none
    · unfold allRowsInv
      rw [runUpdate_consultations_of_ok _ _ _ _ _ hok, List.all_eq_true]
      intro r hr
      obtain ⟨r0, hr0, hre⟩ := List.mem_map.mp hr
      rw [← hre]
      by_cases ht : updateTargets db uid cid r0 = true
      · rw [if_pos ht]
        rfl
      · rw [if_neg ht]
        exact hinv r0 hr0
    · rw [runUpdate_fst_of_err _ _ _ _ _ hok]
      unfold allRowsInv
      rw [List.all_eq_true]
      exact hinv
  · unfold handleStartConsultation
    exact status_advance_preserves_inv db uid cid now _ Status.in_progress rfl rfl rfl
      (by decide) hinv hno
  · unfold handleCompleteConsultation
    exact status_advance_preserves_inv db uid cid now _ Status.completed rfl rfl rfl
      (by decide) hinv hno

/-- C3, witness: the preserved part instantiated on `dbA`. -/
theorem invariant_preserved_by_client_lifecycle_ops_witness :
    allRowsInv (handleAcceptConsultation dbA 1 10 3).1 = true :=
  (invariant_preserved_by_client_lifecycle_ops dbA 1 10 "fever" Urgency.low 3 (by decide)).2.1

/-! Claim C5. -/

/-- C5, amended: the patient update path enforces ownership, not a column
restriction.  For a caller with no `doctors` row: a payload that touches
neither `patient_id` nor `doctor_id` succeeds and applies all of its supplied
fields — in particular `status` IS settable through this path, contrary to
the original claim; a payload that moves `patient_id` to a different identity
leaves the store unchanged.  (Which `doctor_id` values are writable is
governed by the foreign key, not by the policy.) -/
theorem patient_update_enforces_only_ownership (db : DB) (uid cid now : Nat)
    (u : ConsultationUpdate)
    (hnd : isDoctorRow db uid = false) :
    (u.patient_id = none → u.doctor_id = none →
      (runConsultationUpdate db uid cid u now).2 = none ∧
      List.Forall₂ (fun old new => old.id = cid → old.patient_id = uid →
          new = applyUpdate u now old)
        db.consultations (runConsultationUpdate db uid cid u now).1.consultations) ∧
    (∀ q, u.patient_id = some q → q ≠ uid →
      (runConsultationUpdate db uid cid u now).1 = db) := by
  constructor
  · intro hup hud
    have hok : (runConsultationUpdate db uid cid u now).2 = none := by
      rw [runUpdate_ok_iff]
      constructor
      · rw [updatePolicyOk_iff]
        intro r hr ht
        obtain ⟨hid, hpid⟩ := targets_of_not_doctor db uid cid r hnd ht
        unfold consultationsUpdateCheck patientsUpdateCheck
        have h1 : (applyUpdate u now r).patient_id = uid := by
          show u.patient_id.getD r.patient_id = uid
          rw [hup]
          exact hpid
        rw [h1]
        simp
      · rw [updateFkOk_iff]
        intro r hr ht
        have h1 : (applyUpdate u now r).doctor_id = r.doctor_id := by
          show u.doctor_id.getD r.doctor_id = r.doctor_id
          rw [hud]
          rfl
        have h2 : (applyUpdate u now r).patient_id = r.patient_id := by
          show u.patient_id.getD r.patient_id = r.patient_id
          rw [hup]
          rfl
        unfold rowFkOk
        rw [h1, h2]
        simp
    refine ⟨hok, ?_⟩
    apply runUpdate_forall2_of_ok _ _ _ _ _ _ hok
    · intro r hr hnt hid hpid
      exfalso
      have ht : updateTargets db uid cid r = true := by
        unfold updateTargets consultationsUpdateUsing patientsUpdateUsing
        rw [Bool.and_eq_true]
        refine ⟨beq_iff_eq.mpr hid, ?_⟩
        rw [Bool.or_eq_true]
        left
        exact beq_iff_eq.mpr hpid
      rw [ht] at hnt
      exact Bool.noConfusion hnt
    · intro r hr ht hid hpid
      rfl
  · intro q hq hqne
    have hfail : ∀ r ∈ db.consultations, updateTargets db uid cid r = true →
        consultationsUpdateCheck db uid (applyUpdate u now r) = false := by
      intro r hr ht
      unfold consultationsUpdateCheck patientsUpdateCheck doctorsUpdateCheck
      have h1 : (applyUpdate u now r).patient_id = q := by
        show u.patient_id.getD r.patient_id = q
        rw [hq]
        rfl
      rw [h1]
      cases hdd : (applyUpdate u now r).doctor_id with
      | some d => simp [hnd, hqne]
      | none => simp [hqne]
    by_cases hA : updatePolicyOk db uid cid u now = true
    · have hnt : ∀ r ∈ db.consultations, updateTargets db uid cid r = false := by
        intro r hr
        by_cases ht : updateTargets db uid cid r = true
        · exfalso
          have hck := (updatePolicyOk_iff db uid cid u now).mp hA r hr ht
          rw [hfail r hr ht] at hck
          exact Bool.noConfusion hck
        · rw [Bool.not_eq_true] at ht
          exact ht
      have hB : updateFkOk db uid cid u now = true := by
        rw [updateFkOk_iff]
        intro r hr ht
        rw [hnt r hr] at ht
        exact absurd ht (by simp)
      have hmap : db.consultations.map
          (fun row => if updateTargets db uid cid row then applyUpdate u now row else row) =
          db.consultations := by
        apply map_eq_self_of_fix
        intro a ha
        rw [if_neg (by rw [hnt a ha]; exact Bool.false_ne_true)]
      have hfix : ({ db with consultations := db.consultations.map (fun row => if updateTargets db uid cid row then applyUpdate u now row else row) } : DB) = db := by
        rw [hmap]
      unfold runConsultationUpdate
      rw [if_pos hA, if_pos hB]
      exact hfix
    · unfold runConsultationUpdate
      rw [if_neg hA]

/-- C5, witness: patient 2 cancelling their own pending consultation in `dbD`
through the patient update path succeeds. -/
theorem patient_update_enforces_only_ownership_witness :
    (runConsultationUpdate dbD 2 10 cancelPayload 1).2 = none :=
  ((patient_update_enforces_only_ownership dbD 2 10 1 cancelPayload (by decide)).1 rfl rfl).1
